import Mathlib

/-!
Shallow embedding of the vitals-extraction / triage-decision pipeline
(src/services/triageEngine.ts and src/services/geminiService.ts).

Numbers: the TypeScript integer-valued fields (age, systolic_bp,
heart_rate, spo2) are embedded as `Option Int`, the real-valued
temperature as `Option ℚ`.  JavaScript truthiness of a number field
(`vitals.spo2 && ...`) is `present ∧ value ≠ 0`, embedded by matching on
the option and testing the value against 0.
-/

inductive Consciousness
| alert
| confused
| drowsy
| unconscious
deriving DecidableEq, Repr

inductive DoctorAssessment
| low
| moderate
| critical
deriving DecidableEq, Repr

inductive TriageLevel
| CRITICAL
| URGENT
| STABLE
deriving DecidableEq, Repr

def TriageLevel.str : TriageLevel → String
| .CRITICAL => "CRITICAL"
| .URGENT => "URGENT"
| .STABLE => "STABLE"

structure Vitals where
  age : Option Int := none
  systolic_bp : Option Int := none
  heart_rate : Option Int := none
  spo2 : Option Int := none
  temperature : Option ℚ := none
  consciousness : Option Consciousness := none
  doctor_assessment : Option DoctorAssessment := none
deriving DecidableEq, Repr

structure ABCDEStatus where
  A_Airway : String
  B_Breathing : String
  C_Circulation : String
  D_Disability : String
  E_Exposure : String
deriving DecidableEq, Repr

structure TriageResult where
  priority : TriageLevel
  score : Int
  reasons : List String
  red_flags_detected : Bool
  abcde_status : ABCDEStatus
  narrative_summary : String
  decision_pathway : String
deriving DecidableEq, Repr

namespace TriageEngine

/-- `vitals.f && vitals.f < b` for an integer field: truthy (present and
nonzero) and strictly below the bound. -/
def ltFlag (o : Option Int) (b : Int) : Bool :=
match o with
| none => false
| some x => x != 0 && decide (x < b)

/-- Red-flag check, line for line from `TriageEngine.checkRedFlags`. -/
def checkRedFlags (vitals : Vitals) : List String :=
(if ltFlag vitals.spo2 90 then ["Oxygen saturation critically low (<90%)"] else []) ++
(if vitals.consciousness = some .unconscious then ["Patient is unconscious"] else []) ++
(if ltFlag vitals.systolic_bp 90 then ["Blood pressure critically low (<90 mmHg)"] else []) ++
(if vitals.doctor_assessment = some .critical then ["Clinical provider indicates critical condition"] else [])

/-- Rule 1 (Breathing): `vitals.spo2 && vitals.spo2 >= 90 && vitals.spo2 < 92`. -/
def rule1 (vitals : Vitals) : Int × List String :=
match vitals.spo2 with
| none => (0, [])
| some x =>
  if x != 0 && decide (90 ≤ x) && decide (x < 92) then
    (2, ["Oxygen saturation in low-normal range (90-92%)"])
  else (0, [])

/-- Rule 2 (Circulation, heart rate): `vitals.heart_rate && (hr < 50 || hr > 120)`. -/
def rule2 (vitals : Vitals) : Int × List String :=
match vitals.heart_rate with
| none => (0, [])
| some x =>
  if x != 0 && (decide (x < 50) || decide (120 < x)) then
    (2, ["Heart rate abnormal: below 50 or above 120 bpm"])
  else (0, [])

/-- Rule 3 (Circulation, blood pressure): nested branch on `vitals.systolic_bp`. -/
def rule3 (vitals : Vitals) : Int × List String :=
match vitals.systolic_bp with
| none => (0, [])
| some x =>
  if x != 0 then
    if decide (80 ≤ x) && decide (x < 90) then
      (2, ["Blood pressure in low-normal range (80-90 mmHg)"])
    else if decide (180 < x) then
      (2, ["Blood pressure elevated above 180 mmHg"])
    else (0, [])
  else (0, [])

/-- Rule 4 (Disability): `vitals.consciousness === 'drowsy'`. -/
def rule4 (vitals : Vitals) : Int × List String :=
if vitals.consciousness = some .drowsy then (3, ["Patient is drowsy"]) else (0, [])

/-- Rule 5 (Exposure): `vitals.temperature && vitals.temperature > 38.0`. -/
def rule5 (vitals : Vitals) : Int × List String :=
match vitals.temperature with
| none => (0, [])
| some x =>
  if x != 0 && decide ((38 : ℚ) < x) then
    (1, ["Body temperature elevated above 38°C"])
  else (0, [])

/-- Rule 6 (Age): `vitals.age && vitals.age > 60`. -/
def rule6 (vitals : Vitals) : Int × List String :=
match vitals.age with
| none => (0, [])
| some x =>
  if x != 0 && decide (60 < x) then (1, ["Patient age over 60 years"]) else (0, [])

/-- Rule 7 (Provider override): `vitals.doctor_assessment === 'moderate'`. -/
def rule7 (vitals : Vitals) : Int × List String :=
if vitals.doctor_assessment = some .moderate then
  (2, ["Provider assessment indicates moderate risk"])
else (0, [])

/-- Accumulated score of the sequential `score += ...` statements. -/
def scoreOf (vitals : Vitals) : Int :=
(rule1 vitals).1 + (rule2 vitals).1 + (rule3 vitals).1 + (rule4 vitals).1 +
(rule5 vitals).1 + (rule6 vitals).1 + (rule7 vitals).1

/-- Accumulated reasons of the sequential `reasons.push(...)` statements,
in evaluation order. -/
def reasonsOf (vitals : Vitals) : List String :=
(rule1 vitals).2 ++ (rule2 vitals).2 ++ (rule3 vitals).2 ++ (rule4 vitals).2 ++
(rule5 vitals).2 ++ (rule6 vitals).2 ++ (rule7 vitals).2

/-- ABCDE derivation, line for line from `TriageEngine.computeABCDE`;
`!vitals.f` on a number field is "absent or zero". -/
def computeABCDE (vitals : Vitals) : ABCDEStatus where
  A_Airway := if vitals.consciousness = some .unconscious then "AT RISK" else "OPEN"
  B_Breathing :=
    match vitals.spo2 with
    | none => "UNKNOWN"
    | some x =>
      if x = 0 then "UNKNOWN"
      else if x < 90 then "CRITICAL"
      else if x < 92 then "LOW-NORMAL"
      else "ADEQUATE"
  C_Circulation :=
    match vitals.systolic_bp with
    | none => "UNKNOWN"
    | some x =>
      if x = 0 then "UNKNOWN"
      else if x < 90 then "SHOCK"
      else if x < 100 then "LOW-NORMAL"
      else if 180 < x then "HYPERTENSIVE"
      else "ADEQUATE"
  D_Disability :=
    if vitals.consciousness = some .unconscious then "UNCONSCIOUS"
    else if vitals.consciousness = some .drowsy then "DROWSY"
    else "ALERT"
  E_Exposure :=
    match vitals.temperature with
    | none => "UNKNOWN"
    | some x =>
      if x = 0 then "UNKNOWN"
      else if 40 < x ∨ x < 35 then "CRITICAL"
      else if 38 < x then "FEVER"
      else "NORMAL"

/-- `TriageEngine.calculate`: red-flag short circuit, otherwise weighted
scoring with priority thresholds 7 and 4. -/
def calculate (vitals : Vitals) : TriageResult :=
  let redFlags := checkRedFlags vitals
  if 0 < redFlags.length then
    { priority := .CRITICAL
      score := 10
      reasons := redFlags
      red_flags_detected := true
      abcde_status := computeABCDE vitals
      narrative_summary :=
        "CRITICAL: " ++ redFlags.headD "" ++ ". Immediate emergency response required."
      decision_pathway := "RED FLAG DETECTED → CRITICAL (scored 10/10)" }
  else
    let score := scoreOf vitals
    let reasons := reasonsOf vitals
    let priority : TriageLevel :=
      if 7 ≤ score then .CRITICAL else if 4 ≤ score then .URGENT else .STABLE
    { priority := priority
      score := score
      reasons := reasons
      red_flags_detected := false
      abcde_status := computeABCDE vitals
      narrative_summary :=
        if 0 < reasons.length then
          priority.str ++ ": " ++ String.intercalate ", " reasons ++ "."
        else priority.str ++ ": All vital signs within normal limits."
      decision_pathway :=
        "NO RED FLAGS → SCORE " ++ toString score ++ "/10 → " ++ priority.str ++ " PRIORITY" }

end TriageEngine

namespace GeminiService

/-- Digits of a capture group through `parseInt`. -/
def digitsToInt (ds : List Char) : Int :=
Int.ofNat (ds.foldl (fun n c => 10 * n + (c.toNat - 48)) 0)

/-- One start position of `/(?:kw)\D*(\d{2,3})/`: the keyword literal,
then the maximal run of non-digits, then a digit run of length at least 2
whose first (up to) three digits are captured. -/
def kwNumHere (kw : List Char) (s : List Char) : Option Int :=
if kw.isPrefixOf s then
  let ds := ((s.drop kw.length).dropWhile (fun c => !c.isDigit)).takeWhile Char.isDigit
  if 2 ≤ ds.length then some (digitsToInt (ds.take 3)) else none
else none

/-- One start position of `/(\d{2,3})\s*SUF/`: a maximal digit run of
length exactly 2 or 3 (a longer run leaves a digit where `\s*SUF` must
match), optional whitespace, then the literal suffix. -/
def numSufHere (suf : List Char) (s : List Char) : Option Int :=
let ds := s.takeWhile Char.isDigit
if ds.length = 2 ∨ ds.length = 3 then
  if suf.isPrefixOf ((s.drop ds.length).dropWhile Char.isWhitespace) then
    some (digitsToInt ds)
  else none
else none

/-- One start position of `/(\d{2,3})\/(\d{2,3})/`: a maximal digit run of
length 2 or 3, a slash, then at least two more digits; the first run is
the systolic capture. -/
def slashPairHere (s : List Char) : Option Int :=
let ds1 := s.takeWhile Char.isDigit
if ds1.length = 2 ∨ ds1.length = 3 then
  match s.drop ds1.length with
  | '/' :: rest => if 2 ≤ (rest.takeWhile Char.isDigit).length then some (digitsToInt ds1) else none
  | _ => none
else none

/-- Leftmost-match search: try the position matcher at each start
position from the left, as an unanchored regex does. -/
def scanFirst (f : List Char → Option Int) : List Char → Option Int
| [] => none
| c :: rest =>
  match f (c :: rest) with
  | some v => some v
  | none => scanFirst f rest

/-- Leftmost match of a keyword alternation pattern, alternatives tried
in order at each position. -/
def kwNum (kws : List (List Char)) (s : List Char) : Option Int :=
scanFirst (fun t => kws.findSome? (fun kw => kwNumHere kw t)) s

/-- Case-insensitive matching (`/i` flag, `input.toLowerCase()`). -/
def lowerChars (input : String) : List Char := input.data.map Char.toLower

/-- `String.prototype.includes`: the needle occurs as a contiguous
substring of the haystack. -/
def containsSub (needle : List Char) : List Char → Bool
| [] => needle.isEmpty
| c :: rest => needle.isPrefixOf (c :: rest) || containsSub needle rest

/-- `GeminiService.localExtract`: regex extraction of spo2, systolic_bp
and heart_rate plus keyword classification of consciousness.  Temperature
and age have no extraction pattern and are always left absent. -/
def localExtract (input : String) : Vitals :=
  let s := lowerChars input
  let spo2Match :=
    match kwNum ["spo2".data, "oxygen".data, "o2".data] s with
    | some v => some v
    | none => scanFirst (numSufHere "%".data) s
  let bpMatch :=
    match scanFirst slashPairHere s with
    | some v => some v
    | none => kwNum ["bp".data, "pressur".data] s
  let hrMatch :=
    match kwNum ["hr".data, "heart".data, "pulse".data] s with
    | some v => some v
    | none => scanFirst (numSufHere "bpm".data) s
  let consciousness : Consciousness :=
    if containsSub "unconscious".data s ∨ containsSub "not waking".data s ∨
       containsSub "passed out".data s then .unconscious
    else if containsSub "confused".data s ∨ containsSub "disoriented".data s then .confused
    else if containsSub "sleepy".data s ∨ containsSub "drowsy".data s then .drowsy
    else .alert
  { spo2 := spo2Match
    systolic_bp := bpMatch
    heart_rate := hrMatch
    consciousness := some consciousness }

/-- Object-spread semantics of one field of `{...localVitals, ...aiVitals}`:
a field present in the remote record wins, otherwise the local field. -/
def spread {α : Type} (localField remoteField : Option α) : Option α :=
match remoteField with
| some x => some x
| none => localField

/-- `const finalVitals = { ...localVitals, ...aiVitals }`. -/
def mergeVitals (localVitals aiVitals : Vitals) : Vitals where
  age := spread localVitals.age aiVitals.age
  systolic_bp := spread localVitals.systolic_bp aiVitals.systolic_bp
  heart_rate := spread localVitals.heart_rate aiVitals.heart_rate
  spo2 := spread localVitals.spo2 aiVitals.spo2
  temperature := spread localVitals.temperature aiVitals.temperature
  consciousness := spread localVitals.consciousness aiVitals.consciousness
  doctor_assessment := spread localVitals.doctor_assessment aiVitals.doctor_assessment

/-- The merge as run by the supervisor: when the enrichment call produced
no record (failure, timeout, unparsable content) the local record is used
unchanged. -/
def mergeOpt (localVitals : Vitals) (remote : Option Vitals) : Vitals :=
match remote with
| some r => mergeVitals localVitals r
| none => localVitals

inductive Language
| en
| hi
| mr
deriving DecidableEq, Repr

structure ChatOutcome where
  vitals : Vitals
  triage : TriageResult
  aiExplanation : String
  firstAid : String
  isOffline : Bool
deriving DecidableEq, Repr

def offlineExplanation : String :=
"LOCAL SAFETY ENGINE ACTIVE: Based on the information provided, we have calculated your triage priority locally."

def criticalFirstAid : String :=
"Apply pressure to wounds. Keep airway clear. Wait for help."

def stableFirstAid : String :=
"Stay calm. Monitor breathing and stay in a safe place."

/-- `GeminiService.processEmergencyChat`.  The two awaited network calls
are environment inputs: `aiExtract` is the parsed result of the
enrichment call (`none` = the call or its JSON parse threw), `aiExplain`
the parsed result of the explanation call.  A throw anywhere inside the
`try` lands in the single `catch`, which recomputes triage from the
local vitals.  Besides the returned object, the model returns the trace
of vitals records `TriageEngine.calculate` was invoked on, in order.
The `lang` argument only shapes the prompt sent to the explanation call,
so it does not appear in the result. -/
def processEmergencyChat (input : String) (lang : Language) (aiExtract : Option Vitals)
    (aiExplain : Option (String × String)) : ChatOutcome × List Vitals :=
  let localVitals := localExtract input
  match aiExtract with
  | some aiVitals =>
    let finalVitals := mergeVitals localVitals aiVitals
    let triageResult := TriageEngine.calculate finalVitals
    match aiExplain with
    | some content =>
      ({ vitals := finalVitals
         triage := triageResult
         aiExplanation := content.1
         firstAid := content.2
         isOffline := false },
       [finalVitals])
    | none =>
      let tr := TriageEngine.calculate localVitals
      ({ vitals := localVitals
         triage := tr
         aiExplanation := offlineExplanation
         firstAid := if tr.priority = .CRITICAL then criticalFirstAid else stableFirstAid
         isOffline := true },
       [finalVitals, localVitals])
  | none =>
    let tr := TriageEngine.calculate localVitals
    ({ vitals := localVitals
       triage := tr
       aiExplanation := offlineExplanation
       firstAid := if tr.priority = .CRITICAL then criticalFirstAid else stableFirstAid
       isOffline := true },
     [localVitals])

end GeminiService

/-! Concrete vitals records used to instantiate and to refute claims. -/

/-- All fields absent. -/
def emptyVitals : Vitals := {}

/-- Reaches score 10 on the scoring path with no red flag:
spo2 90 (+2), heart rate 130 (+2), systolic 190 (+2), drowsy (+3),
temperature 39 (+1). -/
def vScore10 : Vitals :=
{ spo2 := some 90
  heart_rate := some 130
  systolic_bp := some 190
  consciousness := some .drowsy
  temperature := some 39 }

/-- Reaches the maximal score 13 with no red flag: vScore10 plus
age 65 (+1) and a moderate provider assessment (+2). -/
def vScore13 : Vitals :=
{ spo2 := some 90
  heart_rate := some 130
  systolic_bp := some 190
  consciousness := some .drowsy
  temperature := some 39
  age := some 65
  doctor_assessment := some .moderate }

/-- Triggers the oxygen red flag. -/
def vRedFlag : Vitals := { spo2 := some 85 }

/-- spo2 present but zero: falsy in every engine guard. -/
def vSpo2Zero : Vitals := { spo2 := some 0 }

/-- Unconscious with spo2 in the normal range. -/
def vUnconscious95 : Vitals := { consciousness := some .unconscious, spo2 := some 95 }

/-- Remote enrichment record carrying only a critically low spo2. -/
def remoteSpo2_85 : Vitals := { spo2 := some 85 }

/-! Claim theorems. -/

/-- Claim C1 counterexample: the record vScore10 reaches score 10 and
priority CRITICAL on the scoring path, yet red_flags_detected is false,
so "red_flags_detected iff (score = 10 and priority = CRITICAL)" fails
in the right-to-left direction. -/
theorem C1_counterexample :
    (TriageEngine.calculate vScore10).score = 10 ∧
    (TriageEngine.calculate vScore10).priority = .CRITICAL ∧
    (TriageEngine.calculate vScore10).red_flags_detected = false := by
  decide

/-- Claim C1 (amended): for every vitals record, red_flags_detected = true
implies score = 10 and priority = CRITICAL; the converse direction of the
claimed equivalence is refuted by C1_counterexample. -/
theorem C1_red_flag_forces_score10_critical (v : Vitals)
    (h : (TriageEngine.calculate v).red_flags_detected = true) :
    (TriageEngine.calculate v).score = 10 ∧
    (TriageEngine.calculate v).priority = .CRITICAL := by
  by_cases hl : 0 < (TriageEngine.checkRedFlags v).length
  · simp [TriageEngine.calculate, hl]
  · simp [TriageEngine.calculate, hl] at h

/-- Claim C1 witness: the amended implication applied to a record with a
red flag. -/
theorem C1_witness :
    (TriageEngine.calculate vRedFlag).score = 10 ∧
    (TriageEngine.calculate vRedFlag).priority = .CRITICAL :=
C1_red_flag_forces_score10_critical vRedFlag (by decide)

/-- Claim C2 counterexample: spo2 = 0 is present and below 90, yet the
engine's truthiness guard skips the red flag and the record is scored
STABLE with score 0, not CRITICAL with score 10. -/
theorem C2_counterexample :
    vSpo2Zero.spo2 = some 0 ∧ (0 : Int) < 90 ∧
    (TriageEngine.calculate vSpo2Zero).priority = .STABLE ∧
    (TriageEngine.calculate vSpo2Zero).score = 0 ∧
    (TriageEngine.calculate vSpo2Zero).red_flags_detected = false := by
  decide

/-- Claim C2 (amended): for every vitals record in which spo2 is present
with a nonzero value below 90, the engine returns priority CRITICAL,
score 10 and red_flags_detected = true, regardless of every other
field. -/
theorem C2_low_spo2_dominates (v : Vitals) (x : Int)
    (hx : v.spo2 = some x) (hnz : x ≠ 0) (hlt : x < 90) :
    (TriageEngine.calculate v).priority = .CRITICAL ∧
    (TriageEngine.calculate v).score = 10 ∧
    (TriageEngine.calculate v).red_flags_detected = true := by
  have hflag : TriageEngine.ltFlag v.spo2 90 = true := by
    simp [TriageEngine.ltFlag, hx, hnz, hlt]
  have hlen : 0 < (TriageEngine.checkRedFlags v).length := by
    simp [TriageEngine.checkRedFlags, hflag]
  simp [TriageEngine.calculate, hlen]

/-- Claim C2 witness: the amended dominance applied at spo2 = 85. -/
theorem C2_witness :
    (TriageEngine.calculate vRedFlag).priority = .CRITICAL ∧
    (TriageEngine.calculate vRedFlag).score = 10 ∧
    (TriageEngine.calculate vRedFlag).red_flags_detected = true :=
C2_low_spo2_dominates vRedFlag 85 rfl (by decide) (by decide)

/-- Claim C3 counterexample: with empty input, a successful enrichment
call returning spo2 = 85 and a failed explanation call, the engine runs
twice (once on the merged vitals, once on the local vitals) and the
returned priority is STABLE, computed from the local vitals, although
the triage of the merged vitals is CRITICAL — so the explanation call's
outcome does change which vitals the returned priority comes from. -/
theorem C3_counterexample :
    (GeminiService.processEmergencyChat "" .en (some remoteSpo2_85) none).2.length = 2 ∧
    (GeminiService.processEmergencyChat "" .en (some remoteSpo2_85) none).1.triage.priority
      = .STABLE ∧
    (TriageEngine.calculate
      (GeminiService.mergeVitals (GeminiService.localExtract "") remoteSpo2_85)).priority
      = .CRITICAL := by
  decide

/-- Claim C3 (amended): the decision engine is invoked once on the
merged vitals when the enrichment call succeeds; if the explanation call
then fails it is invoked a second time on the local-only vitals and the
returned triage is the one computed from the local vitals; the returned
triage comes from the merged vitals exactly when both external calls
succeed, and usedOffline reports whether any call failed. -/
theorem C3_engine_invocations (input : String) (lang : GeminiService.Language)
    (aiExtract : Option Vitals) (aiExplain : Option (String × String)) :
    (GeminiService.processEmergencyChat input lang aiExtract aiExplain).2 =
      (match aiExtract, aiExplain with
       | none, _ => [GeminiService.localExtract input]
       | some av, some _ => [GeminiService.mergeVitals (GeminiService.localExtract input) av]
       | some av, none =>
         [GeminiService.mergeVitals (GeminiService.localExtract input) av,
          GeminiService.localExtract input]) ∧
    (GeminiService.processEmergencyChat input lang aiExtract aiExplain).1.triage =
      TriageEngine.calculate
        (match aiExtract, aiExplain with
         | some av, some _ => GeminiService.mergeVitals (GeminiService.localExtract input) av
         | _, _ => GeminiService.localExtract input) ∧
    (GeminiService.processEmergencyChat input lang aiExtract aiExplain).1.isOffline =
      (match aiExtract, aiExplain with
       | some _, some _ => false
       | _, _ => true) := by
  cases aiExtract <;> cases aiExplain <;>
    simp [GeminiService.processEmergencyChat]

/-- Claim C4 counterexample: on input "temperature 39, age 65" the local
extractor recognizes neither temperature nor age, so neither the
temperature rule nor the age rule can fire and the pipeline's score is
0, not 2. -/
theorem C4_counterexample :
    (GeminiService.localExtract "temperature 39, age 65").temperature = none ∧
    (GeminiService.localExtract "temperature 39, age 65").age = none ∧
    (TriageEngine.calculate (GeminiService.localExtract "temperature 39, age 65")).score = 0 := by
  decide

/-- Claim C4 (amended): on input "temperature 39, age 65" the local
extractor produces only consciousness = alert (it has no temperature or
age patterns), so no scoring rule fires: score = 0, no reasons, and the
priority is STABLE. -/
theorem C4_scenarioC :
    GeminiService.localExtract "temperature 39, age 65" =
      { consciousness := some .alert } ∧
    (TriageEngine.calculate (GeminiService.localExtract "temperature 39, age 65")).score = 0 ∧
    (TriageEngine.calculate (GeminiService.localExtract "temperature 39, age 65")).reasons = [] ∧
    (TriageEngine.calculate (GeminiService.localExtract "temperature 39, age 65")).priority
      = .STABLE := by
  decide

/-- Claim C5: the vitals merge is a field-by-field shallow merge — a
field present in the remote record overrides the local one, a field
absent in the remote record falls back to the local value, and an
entirely absent remote record leaves the local record unchanged;
including the spec's two concrete override examples. -/
theorem C5_merge_policy :
    (∀ v : Vitals, GeminiService.mergeOpt v none = v) ∧
    (∀ l r : Vitals, ∀ x, r.age = some x → (GeminiService.mergeVitals l r).age = some x) ∧
    (∀ l r : Vitals, r.age = none → (GeminiService.mergeVitals l r).age = l.age) ∧
    (∀ l r : Vitals, ∀ x, r.systolic_bp = some x →
      (GeminiService.mergeVitals l r).systolic_bp = some x) ∧
    (∀ l r : Vitals, r.systolic_bp = none →
      (GeminiService.mergeVitals l r).systolic_bp = l.systolic_bp) ∧
    (∀ l r : Vitals, ∀ x, r.heart_rate = some x →
      (GeminiService.mergeVitals l r).heart_rate = some x) ∧
    (∀ l r : Vitals, r.heart_rate = none →
      (GeminiService.mergeVitals l r).heart_rate = l.heart_rate) ∧
    (∀ l r : Vitals, ∀ x, r.spo2 = some x → (GeminiService.mergeVitals l r).spo2 = some x) ∧
    (∀ l r : Vitals, r.spo2 = none → (GeminiService.mergeVitals l r).spo2 = l.spo2) ∧
    (∀ l r : Vitals, ∀ x, r.temperature = some x →
      (GeminiService.mergeVitals l r).temperature = some x) ∧
    (∀ l r : Vitals, r.temperature = none →
      (GeminiService.mergeVitals l r).temperature = l.temperature) ∧
    (∀ l r : Vitals, ∀ x, r.consciousness = some x →
      (GeminiService.mergeVitals l r).consciousness = some x) ∧
    (∀ l r : Vitals, r.consciousness = none →
      (GeminiService.mergeVitals l r).consciousness = l.consciousness) ∧
    (∀ l r : Vitals, ∀ x, r.doctor_assessment = some x →
      (GeminiService.mergeVitals l r).doctor_assessment = some x) ∧
    (∀ l r : Vitals, r.doctor_assessment = none →
      (GeminiService.mergeVitals l r).doctor_assessment = l.doctor_assessment) ∧
    (GeminiService.mergeVitals { spo2 := some 95 } { spo2 := some 88 }).spo2 = some 88 ∧
    (GeminiService.mergeVitals { spo2 := some 95 } { heart_rate := some 70 }).spo2 = some 95 := by
  refine ⟨fun v => rfl, ?_, ?_, ?_, ?_, ?_, ?_, ?_, ?_, ?_, ?_, ?_, ?_, ?_, ?_, rfl, rfl⟩ <;>
    intro l r
  all_goals first
    | (intro x h; simp [GeminiService.mergeVitals, GeminiService.spread, h])
    | (intro h; simp [GeminiService.mergeVitals, GeminiService.spread, h])

/-- Claim C5 witness: the override component applied to the spec's
concrete example. -/
theorem C5_witness :
    (GeminiService.mergeVitals { spo2 := some 95 } { spo2 := some 88 }).spo2 = some 88 :=
C5_merge_policy.2.2.2.2.2.2.2.1 { spo2 := some 95 } { spo2 := some 88 } 88 rfl

/-- Claim C6: when no red-flag condition holds, the priority is the step
function of the accumulated score: STABLE below 4, URGENT in [4,7),
CRITICAL at and above 7. -/
theorem C6_priority_step (v : Vitals) (h : TriageEngine.checkRedFlags v = []) :
    ((TriageEngine.calculate v).score < 4 →
      (TriageEngine.calculate v).priority = .STABLE) ∧
    (4 ≤ (TriageEngine.calculate v).score ∧ (TriageEngine.calculate v).score < 7 →
      (TriageEngine.calculate v).priority = .URGENT) ∧
    (7 ≤ (TriageEngine.calculate v).score →
      (TriageEngine.calculate v).priority = .CRITICAL) := by
  have hl : ¬ 0 < (TriageEngine.checkRedFlags v).length := by simp [h]
  simp only [TriageEngine.calculate, hl, if_false]
  refine ⟨?_, ?_, ?_⟩ <;> intro hs <;> split_ifs <;> first | rfl | omega

/-- Claim C6 witness: the step function at the empty record, whose score
is 0. -/
theorem C6_witness : (TriageEngine.calculate emptyVitals).priority = .STABLE :=
(C6_priority_step emptyVitals rfl).1 (by decide)

theorem rule1_le (v : Vitals) : (TriageEngine.rule1 v).1 ≤ 2 := by
  rcases hs : v.spo2 with _ | x <;> simp [TriageEngine.rule1, hs] <;> split <;> simp

theorem rule2_le (v : Vitals) : (TriageEngine.rule2 v).1 ≤ 2 := by
  rcases hs : v.heart_rate with _ | x <;> simp [TriageEngine.rule2, hs] <;> split <;> simp

theorem rule3_le (v : Vitals) : (TriageEngine.rule3 v).1 ≤ 2 := by
  rcases hs : v.systolic_bp with _ | x <;> simp [TriageEngine.rule3, hs] <;>
    split_ifs <;> simp

theorem rule4_le (v : Vitals) : (TriageEngine.rule4 v).1 ≤ 3 := by
  simp [TriageEngine.rule4] <;> split <;> simp

theorem rule5_le (v : Vitals) : (TriageEngine.rule5 v).1 ≤ 1 := by
  rcases hs : v.temperature with _ | x <;> simp [TriageEngine.rule5, hs] <;> split <;> simp

theorem rule6_le (v : Vitals) : (TriageEngine.rule6 v).1 ≤ 1 := by
  rcases hs : v.age with _ | x <;> simp [TriageEngine.rule6, hs] <;> split <;> simp

theorem rule7_le (v : Vitals) : (TriageEngine.rule7 v).1 ≤ 2 := by
  simp [TriageEngine.rule7] <;> split <;> simp

theorem scoreOf_le_13 (v : Vitals) : TriageEngine.scoreOf v ≤ 13 := by
  have h1 := rule1_le v
  have h2 := rule2_le v
  have h3 := rule3_le v
  have h4 := rule4_le v
  have h5 := rule5_le v
  have h6 := rule6_le v
  have h7 := rule7_le v
  unfold TriageEngine.scoreOf
  omega

/-- Claim C7: on the scoring path the score never exceeds 13, and 13 is
attained by a record that triggers no red flag — no clamping to 10 is
applied. -/
theorem C7_score_bound_and_attained :
    (∀ v : Vitals, (TriageEngine.calculate v).score ≤ 13) ∧
    TriageEngine.checkRedFlags vScore13 = [] ∧
    (TriageEngine.calculate vScore13).score = 13 ∧
    (TriageEngine.calculate vScore13).red_flags_detected = false := by
  refine ⟨fun v => ?_, by decide, by decide, by decide⟩
  by_cases hl : 0 < (TriageEngine.checkRedFlags v).length
  · simp [TriageEngine.calculate, hl]
  · simp only [TriageEngine.calculate, hl, if_false]
    exact scoreOf_le_13 v

theorem calculate_abcde (v : Vitals) :
    (TriageEngine.calculate v).abcde_status = TriageEngine.computeABCDE v := by
  by_cases hl : 0 < (TriageEngine.checkRedFlags v).length <;>
    simp [TriageEngine.calculate, hl]

/-- Claim C8: the ABCDE status is always the same pure function of the
vitals, identical on the red-flag and scoring paths; in particular
unconscious yields Airway AT RISK, spo2 at or above 92 yields Breathing
ADEQUATE, and confused maps to Disability ALERT. -/
theorem C8_abcde_independent (v : Vitals) :
    (TriageEngine.calculate v).abcde_status = TriageEngine.computeABCDE v ∧
    (v.consciousness = some .unconscious →
      (TriageEngine.calculate v).abcde_status.A_Airway = "AT RISK") ∧
    (∀ x : Int, v.spo2 = some x → 92 ≤ x →
      (TriageEngine.calculate v).abcde_status.B_Breathing = "ADEQUATE") ∧
    (v.consciousness = some .confused →
      (TriageEngine.calculate v).abcde_status.D_Disability = "ALERT") := by
  refine ⟨calculate_abcde v, ?_, ?_, ?_⟩ <;> rw [calculate_abcde v]
  · intro h
    simp [TriageEngine.computeABCDE, h]
  · intro x hx h92
    have h0 : ¬ x = 0 := by omega
    have h90 : ¬ x < 90 := by omega
    have h92n : ¬ x < 92 := by omega
    simp [TriageEngine.computeABCDE, hx, h0, h90, h92n]
  · intro h
    simp [TriageEngine.computeABCDE, h]

/-- Claim C8 witness: unconscious with spo2 95 gives Airway AT RISK and
Breathing ADEQUATE. -/
theorem C8_witness :
    (TriageEngine.calculate vUnconscious95).abcde_status.A_Airway = "AT RISK" ∧
    (TriageEngine.calculate vUnconscious95).abcde_status.B_Breathing = "ADEQUATE" :=
⟨(C8_abcde_independent vUnconscious95).2.1 rfl,
 (C8_abcde_independent vUnconscious95).2.2.1 95 rfl (by norm_num)⟩

/-- Claim C9: a numeric field carrying the value 0 is treated exactly
like an absent field — the whole triage result is unchanged when 0 is
replaced by absence, and the corresponding ABCDE categories read
UNKNOWN. -/
theorem C9_zero_is_absent (v : Vitals) :
    TriageEngine.calculate { v with spo2 := some 0 } =
      TriageEngine.calculate { v with spo2 := none } ∧
    TriageEngine.calculate { v with systolic_bp := some 0 } =
      TriageEngine.calculate { v with systolic_bp := none } ∧
    TriageEngine.calculate { v with heart_rate := some 0 } =
      TriageEngine.calculate { v with heart_rate := none } ∧
    TriageEngine.calculate { v with temperature := some 0 } =
      TriageEngine.calculate { v with temperature := none } ∧
    TriageEngine.calculate { v with age := some 0 } =
      TriageEngine.calculate { v with age := none } ∧
    (TriageEngine.calculate { v with spo2 := some 0 }).abcde_status.B_Breathing = "UNKNOWN" ∧
    (TriageEngine.calculate { v with temperature := some 0 }).abcde_status.E_Exposure
      = "UNKNOWN" := by
  refine ⟨?_, ?_, ?_, ?_, ?_, ?_, ?_⟩
  case refine_6 =>
    rw [calculate_abcde]
    simp [TriageEngine.computeABCDE]
  case refine_7 =>
    rw [calculate_abcde]
    simp [TriageEngine.computeABCDE]
  all_goals
    simp [TriageEngine.calculate, TriageEngine.checkRedFlags, TriageEngine.scoreOf,
      TriageEngine.reasonsOf, TriageEngine.rule1, TriageEngine.rule2, TriageEngine.rule3,
      TriageEngine.rule4, TriageEngine.rule5, TriageEngine.rule6, TriageEngine.rule7,
      TriageEngine.computeABCDE, TriageEngine.ltFlag]

theorem rule1_reasons (v : Vitals) :
    (TriageEngine.rule1 v).2 = [] ∨
    (TriageEngine.rule1 v).2 = ["Oxygen saturation in low-normal range (90-92%)"] := by
  rcases hs : v.spo2 with _ | x <;> simp [TriageEngine.rule1, hs]
  split_ifs <;> simp

theorem rule2_reasons (v : Vitals) :
    (TriageEngine.rule2 v).2 = [] ∨
    (TriageEngine.rule2 v).2 = ["Heart rate abnormal: below 50 or above 120 bpm"] := by
  rcases hs : v.heart_rate with _ | x <;> simp [TriageEngine.rule2, hs]
  split_ifs <;> simp

theorem rule3_reasons (v : Vitals) :
    (TriageEngine.rule3 v).2 = [] ∨
    ((TriageEngine.rule3 v).2 = ["Blood pressure in low-normal range (80-90 mmHg)"] ∧
      TriageEngine.ltFlag v.systolic_bp 90 = true) ∨
    (TriageEngine.rule3 v).2 = ["Blood pressure elevated above 180 mmHg"] := by
  rcases hs : v.systolic_bp with _ | x <;>
    simp [TriageEngine.rule3, TriageEngine.ltFlag, hs]
  split_ifs with h0 hlow hhigh <;> simp_all

theorem rule4_reasons (v : Vitals) :
    (TriageEngine.rule4 v).2 = [] ∨ (TriageEngine.rule4 v).2 = ["Patient is drowsy"] := by
  simp [TriageEngine.rule4]
  split_ifs <;> simp

theorem rule5_reasons (v : Vitals) :
    (TriageEngine.rule5 v).2 = [] ∨
    (TriageEngine.rule5 v).2 = ["Body temperature elevated above 38°C"] := by
  rcases hs : v.temperature with _ | x <;> simp [TriageEngine.rule5, hs]
  split_ifs <;> simp

theorem rule6_reasons (v : Vitals) :
    (TriageEngine.rule6 v).2 = [] ∨ (TriageEngine.rule6 v).2 = ["Patient age over 60 years"] := by
  rcases hs : v.age with _ | x <;> simp [TriageEngine.rule6, hs]
  split_ifs <;> simp

theorem rule7_reasons (v : Vitals) :
    (TriageEngine.rule7 v).2 = [] ∨
    (TriageEngine.rule7 v).2 = ["Provider assessment indicates moderate risk"] := by
  simp [TriageEngine.rule7]
  split_ifs <;> simp

theorem checkRedFlags_nil_bp (v : Vitals) (h : TriageEngine.checkRedFlags v = []) :
    TriageEngine.ltFlag v.systolic_bp 90 = false := by
  rcases hb : TriageEngine.ltFlag v.systolic_bp 90
  · rfl
  · simp [TriageEngine.checkRedFlags, hb] at h

theorem bp_low_normal_not_mem (v : Vitals) :
    "Blood pressure in low-normal range (80-90 mmHg)" ∉ (TriageEngine.calculate v).reasons := by
  intro hmem
  by_cases hl : 0 < (TriageEngine.checkRedFlags v).length
  · simp only [TriageEngine.calculate, hl, if_true] at hmem
    rcases hb1 : TriageEngine.ltFlag v.spo2 90 <;>
      rcases hb3 : TriageEngine.ltFlag v.systolic_bp 90 <;>
      by_cases hb2 : v.consciousness = some .unconscious <;>
      by_cases hb4 : v.doctor_assessment = some .critical <;>
      simp [TriageEngine.checkRedFlags, hb1, hb2, hb3, hb4] at hmem <;>
      revert hmem <;> decide
  · have hnil : TriageEngine.checkRedFlags v = [] := by
      simpa using List.length_eq_zero.mp (by omega)
    have hbp := checkRedFlags_nil_bp v hnil
    simp only [TriageEngine.calculate, hl, if_false] at hmem
    simp only [TriageEngine.reasonsOf, List.mem_append] at hmem
    rcases hmem with ((((((h | h) | h) | h) | h) | h) | h)
    · rcases rule1_reasons v with he | he <;> rw [he] at h <;> revert h <;> decide
    · rcases rule2_reasons v with he | he <;> rw [he] at h <;> revert h <;> decide
    · rcases rule3_reasons v with he | ⟨he, hf⟩ | he
      · rw [he] at h
        exact absurd h (by decide)
      · rw [hf] at hbp
        exact absurd hbp (by decide)
      · rw [he] at h
        exact absurd h (by decide)
    · rcases rule4_reasons v with he | he <;> rw [he] at h <;> revert h <;> decide
    · rcases rule5_reasons v with he | he <;> rw [he] at h <;> revert h <;> decide
    · rcases rule6_reasons v with he | he <;> rw [he] at h <;> revert h <;> decide
    · rcases rule7_reasons v with he | he <;> rw [he] at h <;> revert h <;> decide

/-- Claim C10: the low-normal blood-pressure reason string is
unreachable — whenever the +2 branch for systolic pressure in [80,90)
could fire, the systolic red flag has already diverted the computation,
so no triage result ever lists it. -/
theorem C10_bp_low_normal_unreachable (v : Vitals) :
    ((TriageEngine.calculate v).reasons.contains
      "Blood pressure in low-normal range (80-90 mmHg)") = false := by
  rcases hc : (TriageEngine.calculate v).reasons.contains
      "Blood pressure in low-normal range (80-90 mmHg)"
  · rfl
  · exact absurd (by simpa using hc) (bp_low_normal_not_mem v)
